import Mathlib

/-!
Verification of the AWS profile/region resolution core of the DevWizard
repository, as implemented in `aws_profile_manager.py` and
`aws_tray_manager.py`.

Modelling notes:
* INI stores (the credentials file and the config file) are read by Python's
  `configparser`. A store is modelled as an ordered list of sections, each a
  section name paired with an ordered list of `(key, value)` options, in file
  order. `configparser` only special-cases the *uppercase* `DEFAULT` section
  (excluded from `sections()`, inherited into every lookup); AWS credential and
  config files never contain an uppercase `DEFAULT` section, and a literal
  lowercase `[default]` section is an ordinary section that `sections()`
  reports at its file position. The model therefore uses plain ordered lookup
  with no inherited section, and `sections()` is the list of names in order.
* `configparser.read` rejects duplicate section headers (strict mode, the
  default) and cannot produce an empty section name, so parsed stores have
  unique non-empty section names; theorems that need this state it as an
  explicit hypothesis.
* The process environment is an association list from variable names to
  values; `os.environ[k] = v` is `setEnv`, membership test `k in os.environ`
  plus read `os.environ[k]` is `getEnv`.
* File existence checks (`os.path.exists`) are Boolean parameters; the parsed
  contents of a file that exists are passed in directly. A config file that
  does not exist is indistinguishable from an empty parser, so callers pass
  the empty store for it.
* The generated `set_aws_profile.bat` helper (persisted switch state) is
  modelled by its list of lines.
-/

namespace DevWizard

/-- One INI section body: ordered `(key, value)` options. -/
abbrev Options := List (String × String)

/-- An INI store: sections in file order, each a name with its options. -/
abbrev IniStore := List (String × Options)

/-- First section with the given name, if any (ordered lookup). -/
def findSection : IniStore → String → Option Options
  | [], _ => none
  | (n, o) :: rest, s => if n == s then some o else findSection rest s

/-- `configparser.has_section`. -/
def hasSection (st : IniStore) (s : String) : Bool :=
  (findSection st s).isSome

/-- First option with the given key inside one section body. -/
def findOption : Options → String → Option String
  | [], _ => none
  | (k, v) :: rest, key => if k == key then some v else findOption rest key

/-- Value of option `k` in section `s`, if both exist. -/
def getOption (st : IniStore) (s k : String) : Option String :=
  match findSection st s with
  | none => none
  | some o => findOption o k

/-- `configparser.has_option(s, k)` (no uppercase-DEFAULT inheritance, see
module comment). -/
def hasOptionIn (st : IniStore) (s k : String) : Bool :=
  (getOption st s k).isSome

/-- `configparser.get(s, k, fallback=fb)`: the fallback covers both a missing
section and a missing key. -/
def getValue (st : IniStore) (s k fb : String) : String :=
  (getOption st s k).getD fb

/-- `configparser.sections()`: section names in file order. -/
def sectionsOf (st : IniStore) : List String :=
  st.map (fun sec => sec.1)

/-- The process environment: ordered association list of variables. -/
abbrev Env := List (String × String)

/-- Environment read: `os.environ[k]` when `k in os.environ`, else `none`. -/
def getEnv : Env → String → Option String
  | [], _ => none
  | (k, v) :: rest, key => if k == key then some v else getEnv rest key

/-- Environment write `os.environ[k] = v`: replace the first binding of `k`
in place, or append a fresh binding. -/
def setEnv : Env → String → String → Env
  | [], key, v => [(key, v)]
  | (k, w) :: rest, key, v =>
    if k == key then (key, v) :: rest else (k, w) :: setEnv rest key v

/-- A favorite tag from `config.json`: `{name, color, region}`. -/
structure Favorite where
  name : String
  color : String
  region : String
deriving Repr, DecidableEq

/-- The fields of the external `config.json` settings the resolution core
reads (`default_region` and `favorites`; the two path templates are replaced
by passing the store contents and existence flags directly). -/
structure Settings where
  defaultRegion : String
  favorites : List Favorite
deriving Repr, DecidableEq

/-- Lines 62-74 of `aws_profile_manager.py` / 60-72 of `aws_tray_manager.py`:
the current profile is the `AWS_PROFILE` environment override, else the
literal name `default`. -/
def currentProfile (env : Env) : String :=
  (getEnv env "AWS_PROFILE").getD "default"

/-- Same lines, region part: `AWS_REGION`, else `AWS_DEFAULT_REGION`, else the
config-store option `region` of section `"profile " + currentProfile` (note:
this section name is used even when the current profile is the literal name
`default`), else the configured default region. -/
def currentRegion (env : Env) (cfg : IniStore) (d : String) : String :=
  match getEnv env "AWS_REGION" with
  | some r => r
  | none =>
    match getEnv env "AWS_DEFAULT_REGION" with
    | some r => r
    | none =>
      let sec := "profile " ++ currentProfile env
      if hasSection cfg sec && hasOptionIn cfg sec "region" then
        getValue cfg sec "region" d
      else d

/-- `resolveActive()`: the effective `(profile, region)` pair, as computed at
lines 62-74 of `aws_profile_manager.py` (identically at lines 60-72 of
`aws_tray_manager.py`). -/
def resolveActive (env : Env) (cfg : IniStore) (d : String) : String × String :=
  (currentProfile env, currentRegion env cfg d)

/-- Lines 80-83 of `aws_profile_manager.py` / 74-77 of `aws_tray_manager.py`:
`profiles = list(credentials.sections())`, then hoist `default` to the front
when it is absent from `profiles` yet `has_section("default")` holds. Since a
literal `[default]` section always appears in `sections()`, the guard of the
hoist is never satisfiable. -/
def listProfiles (cred : IniStore) : List String :=
  let profiles := sectionsOf cred
  if !profiles.contains "default" && hasSection cred "default" then
    "default" :: profiles
  else profiles

/-- Config-store section consulted for a named profile on the switch path:
`"default"` for the literal name `default`, else `"profile " + name`
(line 94 of `aws_tray_manager.py`, line 178 of `aws_profile_manager.py`). -/
def sectionNameFor (p : String) : String :=
  if p == "default" then "default" else "profile " ++ p

/-- `resolveRegionFor(profileName)`: lines 93-98 of `aws_tray_manager.py`
(identically lines 177-182 of `aws_profile_manager.py`). Total by
construction: a missing section or missing `region` key falls back to the
configured default region. -/
def resolveRegionFor (p : String) (cfg : IniStore) (d : String) : String :=
  let sec := sectionNameFor p
  if hasSection cfg sec then getValue cfg sec "region" d else d

/-- Process-and-host state touched by a switch: the process environment and
the generated `set_aws_profile.bat` helper (the persisted form of the
switch), `none` before any switch wrote it. -/
structure SysState where
  env : Env
  batchFile : Option (List String)
deriving Repr, DecidableEq

/-- The lines written to `set_aws_profile.bat` by lines 106-111 of
`aws_tray_manager.py` for a switch to profile `p` with region `r`. -/
def batchLines (p r : String) : List String :=
  [ "@echo off"
  , "echo Setting AWS profile to " ++ p ++ "..."
  , "setx AWS_PROFILE " ++ p
  , "setx AWS_DEFAULT_REGION " ++ r
  , "echo Profile set to " ++ p ++ " (" ++ r ++ ")" ]

/-- `switchTo(profileName)`: `switch_profile` at lines 81-116 of
`aws_tray_manager.py` (the switch arm of `manage_aws_profiles`, lines 177-200
of `aws_profile_manager.py`, is the same computation; its batch file carries
one extra `pause` line). Resolves the region, sets exactly `AWS_PROFILE` and
`AWS_DEFAULT_REGION` in the process environment, rewrites the batch helper,
and returns the selected region. It never consults the credentials store. -/
def switchProfile (p : String) (cfg : IniStore) (d : String) (st : SysState) :
    SysState × String :=
  let r := resolveRegionFor p cfg d
  let env1 := setEnv (setEnv st.env "AWS_PROFILE" p) "AWS_DEFAULT_REGION" r
  (⟨env1, some (batchLines p r)⟩, r)

/-- Result of `get_aws_profiles()` (`aws_tray_manager.py` lines 38-79). -/
structure ProfilesResult where
  profiles : List String
  currentProfile : String
  currentRegion : String
  favorites : List Favorite
deriving Repr, DecidableEq

/-- `get_aws_profiles()` of `aws_tray_manager.py`: when the credentials file
is missing it returns the empty profile list with the literal `default`
profile and the configured default region (lines 47-49); otherwise it lists
the credential sections and resolves the active selection. -/
def getAwsProfiles (s : Settings) (credExists : Bool) (cred cfg : IniStore)
    (env : Env) : ProfilesResult :=
  if !credExists then
    ⟨[], "default", s.defaultRegion, s.favorites⟩
  else
    ⟨listProfiles cred, currentProfile env, currentRegion env cfg s.defaultRegion,
      s.favorites⟩

/-- The two on-disk stores, for the add-profile flow. -/
structure Stores where
  cred : IniStore
  config : IniStore
deriving Repr, DecidableEq

/-- Error outcomes of the add-profile flow of `manage_aws_profiles`
(lines 114-123 of `aws_profile_manager.py`): an empty name is rejected first,
then a name already present in the credentials store. -/
inductive AddError where
  | emptyName
  | duplicateProfile
deriving Repr, DecidableEq

/-- `configparser.set(s, k, v)` on a store whose section `s` exists: replace
the first binding of `k` in that section, or append it. -/
def setOptionInSection : Options → String → String → Options
  | [], key, v => [(key, v)]
  | (k, w) :: rest, key, v =>
    if k == key then (key, v) :: rest else (k, w) :: setOptionInSection rest key v

/-- Apply `configparser.set(s, k, v)` to the named section of a store. -/
def setOption : IniStore → String → String → String → IniStore
  | [], s, k, v => [(s, [(k, v)])]
  | (n, o) :: rest, s, k, v =>
    if n == s then (s, setOptionInSection o k v) :: rest
    else (n, o) :: setOption rest s k v

/-- `addProfile(name, accessKeyId, secretAccessKey, region)`: the `a` arm of
`manage_aws_profiles`, lines 114-148 of `aws_profile_manager.py`. Rejects an
empty name, then a duplicate name, both before any write; otherwise appends
the new credentials section, upserts `region` into config section
`"profile " + name`, and rewrites both files in full. -/
def addProfile (n ak sk r : String) (st : Stores) : Stores × Option AddError :=
  if n == "" then (st, some AddError.emptyName)
  else if hasSection st.cred n then (st, some AddError.duplicateProfile)
  else
    let cred1 := st.cred ++ [(n, [("aws_access_key_id", ak), ("aws_secret_access_key", sk)])]
    let cfg1 :=
      if hasSection st.config ("profile " ++ n) then
        setOption st.config ("profile " ++ n) "region" r
      else
        setOption (st.config ++ [("profile " ++ n, [])]) ("profile " ++ n) "region" r
    (⟨cred1, cfg1⟩, none)

/-- `switchTo` through the `config.json` settings record. -/
def switchProfileS (s : Settings) (p : String) (cfg : IniStore) (st : SysState) :
    SysState × String :=
  switchProfile p cfg s.defaultRegion st

/-- `resolveRegionFor` through the `config.json` settings record. -/
def resolveRegionForS (s : Settings) (p : String) (cfg : IniStore) : String :=
  resolveRegionFor p cfg s.defaultRegion

/-- `resolveActive` through the `config.json` settings record. -/
def resolveActiveS (s : Settings) (env : Env) (cfg : IniStore) : String × String :=
  resolveActive env cfg s.defaultRegion

/-- The config-store region the spec declares for a profile in the
`resolveActive` precedence chain: the `region` option of section
`"profile " ++ foo`, else the configured default region. Named so the
amended Claim C1 can refer to it. -/
def regionFromProfileSection (cfg : IniStore) (foo d : String) : String :=
  match getOption cfg ("profile " ++ foo) "region" with
  | some r => r
  | none => d

theorem beq_false_of_ne {a b : String} (h : a ≠ b) : (a == b) = false :=
  beq_eq_false_iff_ne.mpr h

theorem getEnv_setEnv_self (e : Env) (k v : String) :
    getEnv (setEnv e k v) k = some v := by
  induction e with
  | nil => simp [setEnv, getEnv]
  | cons hd tl ih =>
    obtain ⟨k1, v1⟩ := hd
    cases hb : k1 == k with
    | true => simp [setEnv, hb, getEnv]
    | false => simp [setEnv, hb, getEnv, ih]

theorem getEnv_setEnv_ne (e : Env) (k key v : String) (h : key ≠ k) :
    getEnv (setEnv e k v) key = getEnv e key := by
  induction e with
  | nil =>
    simp [setEnv, getEnv, beq_false_of_ne (Ne.symm h)]
  | cons hd tl ih =>
    obtain ⟨k1, v1⟩ := hd
    cases hb : k1 == k with
    | true =>
      have hk1 : k1 = k := eq_of_beq hb
      subst hk1
      simp [setEnv, hb, getEnv, beq_false_of_ne (Ne.symm h)]
    | false =>
      simp [setEnv, hb, getEnv, ih]

theorem setEnv_getEnv_eq (e : Env) (k v : String) (h : getEnv e k = some v) :
    setEnv e k v = e := by
  induction e with
  | nil => simp [getEnv] at h
  | cons hd tl ih =>
    obtain ⟨k1, v1⟩ := hd
    cases hb : k1 == k with
    | true =>
      have hk1 : k1 = k := eq_of_beq hb
      subst hk1
      simp [getEnv] at h
      subst h
      simp [setEnv]
    | false =>
      simp [getEnv, hb] at h
      simp [setEnv, hb, ih h]

theorem hasSection_of_getOption_some (st : IniStore) (s k v : String)
    (h : getOption st s k = some v) : hasSection st s = true := by
  unfold getOption at h
  unfold hasSection
  cases hfs : findSection st s with
  | none => rw [hfs] at h; exact absurd h (by simp)
  | some o => simp [hfs]

theorem mem_sectionsOf_of_hasSection (st : IniStore) (s : String)
    (h : hasSection st s = true) : s ∈ sectionsOf st := by
  induction st with
  | nil => simp [hasSection, findSection] at h
  | cons hd tl ih =>
    obtain ⟨n, o⟩ := hd
    cases hb : n == s with
    | true =>
      have hn : n = s := eq_of_beq hb
      subst hn
      exact List.mem_cons_self n (sectionsOf tl)
    | false =>
      have h1 : hasSection tl s = true := by
        simpa [hasSection, findSection, hb] using h
      exact List.mem_cons_of_mem n (ih h1)

/-- The hoist guard in `listProfiles` is dead code: a literal `[default]`
section always appears in `sections()`, so the computed list is always
exactly the section names in file order. -/
theorem listProfiles_eq_sectionsOf (cred : IniStore) :
    listProfiles cred = sectionsOf cred := by
  unfold listProfiles
  cases hs : hasSection cred "default" with
  | false => simp [hs]
  | true =>
    have hm : "default" ∈ sectionsOf cred := mem_sectionsOf_of_hasSection cred "default" hs
    simp [hs]
    exact hm

/-- Claim C1, counterexample: with `AWS_PROFILE=default`, no region variables,
and a config store whose `default` section declares `eu-west-1`,
`resolveActive()` returns the configured default region `us-east-1` instead of
the region declared for the profile in the config store (the lookup
`resolveRegionFor` and the spec both place the default profile's region in
section `default`, but `resolveActive` consults only `profile default`). -/
theorem resolveActive_default_profile_counterexample :
    ¬ (resolveActive [("AWS_PROFILE", "default")]
        [("default", [("region", "eu-west-1")])] "us-east-1"
      = ("default",
          resolveRegionFor "default"
            [("default", [("region", "eu-west-1")])] "us-east-1")) := by
  decide

/-- Claim C1 (amended): with `AWS_PROFILE=foo` and neither `AWS_REGION` nor
`AWS_DEFAULT_REGION` set, `resolveActive()` returns profile `foo` with the
`region` option of config section `"profile " ++ foo` — that section name is
used even when `foo` is the literal name `default` — falling back to the
configured default region when the section or key is absent; the region
precedence is `AWS_REGION`, then `AWS_DEFAULT_REGION`, then that config
section, then the configured default. -/
theorem resolveActive_profile_env_region (foo : String) (env : Env)
    (cfg : IniStore) (d : String)
    (hp : getEnv env "AWS_PROFILE" = some foo)
    (hr : getEnv env "AWS_REGION" = none)
    (hd : getEnv env "AWS_DEFAULT_REGION" = none) :
    resolveActive env cfg d = (foo, regionFromProfileSection cfg foo d) := by
  have hcp : currentProfile env = foo := by simp [currentProfile, hp]
  unfold resolveActive currentRegion
  rw [hr, hd, hcp]
  cases hopt : getOption cfg ("profile " ++ foo) "region" with
  | none =>
    simp [hasOptionIn, hopt, regionFromProfileSection, hcp]
  | some r =>
    have hsec := hasSection_of_getOption_some cfg ("profile " ++ foo) "region" r hopt
    simp [hasOptionIn, hopt, hsec, getValue, regionFromProfileSection, hcp]

/-- Claim C1 witness: a concrete run of the amended statement, with the
profile-section region evaluated. -/
theorem resolveActive_profile_env_region_witness :
    resolveActive [("AWS_PROFILE", "team-a")]
        [("profile team-a", [("region", "eu-west-1")])] "us-east-1"
      = ("team-a",
          regionFromProfileSection
            [("profile team-a", [("region", "eu-west-1")])] "team-a" "us-east-1")
    ∧ regionFromProfileSection
        [("profile team-a", [("region", "eu-west-1")])] "team-a" "us-east-1"
      = "eu-west-1" :=
  ⟨resolveActive_profile_env_region "team-a" [("AWS_PROFILE", "team-a")]
      [("profile team-a", [("region", "eu-west-1")])] "us-east-1"
      (by decide) (by decide) (by decide),
    by decide⟩

/-- Claim C2, code bug: a credentials store listing `prod` before `default`
is returned in file order — `default` stays at index 1, because the hoist
guard at lines 82-83 of `aws_profile_manager.py` is unsatisfiable (a literal
`[default]` section is already in `sections()`). -/
theorem listProfiles_no_default_hoist :
    listProfiles
        [("prod", [("aws_access_key_id", "AKIAPROD")]),
         ("default", [("aws_access_key_id", "AKIADEF")])]
      = ["prod", "default"] := by
  decide

/-- Claim C4: `switchTo(p)` is idempotent — a second switch to the same
profile recomputes the same region, rewrites the same environment bindings
and the same batch-file lines, and (being a total function) cannot error. -/
theorem switchProfile_idempotent (p d : String) (cfg : IniStore) (st : SysState) :
    switchProfile p cfg d (switchProfile p cfg d st).1 = switchProfile p cfg d st := by
  have h1 : getEnv (setEnv (setEnv st.env "AWS_PROFILE" p) "AWS_DEFAULT_REGION"
      (resolveRegionFor p cfg d)) "AWS_PROFILE" = some p := by
    rw [getEnv_setEnv_ne _ _ _ _ (by decide)]
    exact getEnv_setEnv_self _ _ _
  simp only [switchProfile]
  rw [setEnv_getEnv_eq _ _ _ h1, setEnv_getEnv_eq _ _ _ (getEnv_setEnv_self _ _ _)]

/-- Claim C6: `resolveRegionFor` is total on missing configuration — when the
section consulted for a profile (`profile X`, or `default` for the literal
name `default`) is absent, or present without a `region` key, it returns the
configured default region (and, as a total Lean function, never throws). -/
theorem resolveRegionFor_total (p d : String) (cfg : IniStore)
    (h : hasSection cfg (sectionNameFor p) = false
       ∨ getOption cfg (sectionNameFor p) "region" = none) :
    resolveRegionFor p cfg d = d := by
  rcases h with h | h
  · simp [resolveRegionFor, h]
  · cases hs : hasSection cfg (sectionNameFor p) with
    | false => simp [resolveRegionFor, hs]
    | true => simp [resolveRegionFor, hs, getValue, h]

/-- Claim C6 witness: a config store with a `profile X` section that has no
`region` key resolves to the configured default region. -/
theorem resolveRegionFor_total_witness :
    resolveRegionFor "X" [("profile X", [("output", "json")])] "us-east-1"
      = "us-east-1" :=
  resolveRegionFor_total "X" "us-east-1" [("profile X", [("output", "json")])]
    (Or.inr (by decide))

/-- Claim C3, counterexample: in a process whose environment already carries
`AWS_REGION=eu-central-1`, `switchTo("x")` followed by `resolveActive()` does
not return `("x", resolveRegionFor("x"))` — the pre-existing `AWS_REGION`
outranks the switched region. -/
theorem switch_then_resolve_counterexample :
    ¬ (resolveActive
        (switchProfile "x" [] "us-east-1" ⟨[("AWS_REGION", "eu-central-1")], none⟩).1.env
        [] "us-east-1"
      = ("x", resolveRegionFor "x" [] "us-east-1")) := by
  decide

/-- Claim C3 (amended): for every profile name `p` and every initial process
environment in which `AWS_REGION` is unset, `switchTo(p)` followed by
`resolveActive()` in the same process returns `(p, resolveRegionFor(p))`. -/
theorem switch_then_resolve (p d : String) (cfg : IniStore) (st : SysState)
    (h : getEnv st.env "AWS_REGION" = none) :
    resolveActive (switchProfile p cfg d st).1.env cfg d
      = (p, resolveRegionFor p cfg d) := by
  simp only [switchProfile]
  have hP : getEnv (setEnv (setEnv st.env "AWS_PROFILE" p) "AWS_DEFAULT_REGION"
      (resolveRegionFor p cfg d)) "AWS_PROFILE" = some p := by
    rw [getEnv_setEnv_ne _ _ _ _ (by decide)]
    exact getEnv_setEnv_self _ _ _
  have hR : getEnv (setEnv (setEnv st.env "AWS_PROFILE" p) "AWS_DEFAULT_REGION"
      (resolveRegionFor p cfg d)) "AWS_REGION" = none := by
    rw [getEnv_setEnv_ne _ _ _ _ (by decide), getEnv_setEnv_ne _ _ _ _ (by decide)]
    exact h
  have hD : getEnv (setEnv (setEnv st.env "AWS_PROFILE" p) "AWS_DEFAULT_REGION"
      (resolveRegionFor p cfg d)) "AWS_DEFAULT_REGION"
      = some (resolveRegionFor p cfg d) := getEnv_setEnv_self _ _ _
  simp [resolveActive, currentProfile, currentRegion, hP, hR, hD]

/-- Claim C3 witness: switching to `team-a` in an environment without
`AWS_REGION` and then resolving yields `team-a` with its configured region. -/
theorem switch_then_resolve_witness :
    resolveActive
        (switchProfile "team-a" [("profile team-a", [("region", "ap-south-1")])]
          "us-east-1" ⟨[("HOME", "/home/dev")], none⟩).1.env
        [("profile team-a", [("region", "ap-south-1")])] "us-east-1"
      = ("team-a",
          resolveRegionFor "team-a" [("profile team-a", [("region", "ap-south-1")])]
            "us-east-1") :=
  switch_then_resolve "team-a" "us-east-1"
    [("profile team-a", [("region", "ap-south-1")])]
    ⟨[("HOME", "/home/dev")], none⟩ (by decide)

/-- Claim C5: adding a profile whose (necessarily non-empty, since it was
parsed from an INI section header) name is already a credentials section
fails with `DuplicateProfile` and returns both stores untouched — the
duplicate check precedes every write. -/
theorem addProfile_duplicate_unchanged (n ak sk r : String) (st : Stores)
    (hn : n ≠ "") (hdup : hasSection st.cred n = true) :
    addProfile n ak sk r st = (st, some AddError.duplicateProfile) := by
  simp [addProfile, beq_false_of_ne hn, hdup]

/-- Claim C5 witness: re-adding `team-a` with fresh keys and a different
region leaves the concrete stores exactly as they were. -/
theorem addProfile_duplicate_unchanged_witness :
    addProfile "team-a" "AKIA2" "secret2" "eu-west-1"
        ⟨[("team-a", [("aws_access_key_id", "AKIA1"), ("aws_secret_access_key", "s1")])],
          [("profile team-a", [("region", "us-west-2")])]⟩
      = (⟨[("team-a", [("aws_access_key_id", "AKIA1"), ("aws_secret_access_key", "s1")])],
           [("profile team-a", [("region", "us-west-2")])]⟩,
         some AddError.duplicateProfile) :=
  addProfile_duplicate_unchanged "team-a" "AKIA2" "secret2" "eu-west-1"
    ⟨[("team-a", [("aws_access_key_id", "AKIA1"), ("aws_secret_access_key", "s1")])],
      [("profile team-a", [("region", "us-west-2")])]⟩
    (by decide) (by decide)

/-- Claim C7, counterexample: with the credentials file missing,
`get_aws_profiles()` returns a plain result whose profile list is empty —
there is no `StoreUnavailable` failure in its type or control flow, so the
missing store is silent. -/
theorem getAwsProfiles_missing_store_counterexample :
    getAwsProfiles ⟨"us-east-1", []⟩ false [] [] []
      = ⟨[], "default", "us-east-1", []⟩ := by
  decide

/-- Claim C7 (amended): in the tray implementation, whenever the configured
credentials path names a non-existent file, `listProfiles()` (the profile
list of `get_aws_profiles()`) silently returns the empty sequence together
with profile `default` and the configured default region; it does not fail
with `StoreUnavailable`. -/
theorem getAwsProfiles_missing_store (s : Settings) (cred cfg : IniStore)
    (env : Env) :
    getAwsProfiles s false cred cfg env
      = ⟨[], "default", s.defaultRegion, s.favorites⟩ :=
  rfl

/-- Claim C8: `switchTo` performs no existence check — even for a target
absent from the credentials store it sets `AWS_PROFILE` to the target,
sets `AWS_DEFAULT_REGION` to `resolveRegionFor` of the target, returns that
region, and (the credentials store being no input of `switch_profile` at
all) cannot fail with `UnknownProfile`. -/
theorem switchProfile_no_existence_check (p d : String) (cred cfg : IniStore)
    (st : SysState) (h : hasSection cred p = false) :
    getEnv (switchProfile p cfg d st).1.env "AWS_PROFILE" = some p
    ∧ getEnv (switchProfile p cfg d st).1.env "AWS_DEFAULT_REGION"
        = some (resolveRegionFor p cfg d)
    ∧ (switchProfile p cfg d st).2 = resolveRegionFor p cfg d := by
  refine ⟨?_, ?_, rfl⟩
  · simp only [switchProfile]
    rw [getEnv_setEnv_ne _ _ _ _ (by decide)]
    exact getEnv_setEnv_self _ _ _
  · simp only [switchProfile]
    exact getEnv_setEnv_self _ _ _

/-- Claim C8 witness: switching to a profile `ghost` that the concrete
credentials store does not contain still succeeds and sets both variables. -/
theorem switchProfile_no_existence_check_witness :
    getEnv (switchProfile "ghost" [] "us-east-1"
        ⟨[], none⟩).1.env "AWS_PROFILE" = some "ghost"
    ∧ getEnv (switchProfile "ghost" [] "us-east-1"
        ⟨[], none⟩).1.env "AWS_DEFAULT_REGION"
        = some (resolveRegionFor "ghost" [] "us-east-1")
    ∧ (switchProfile "ghost" [] "us-east-1" ⟨[], none⟩).2
        = resolveRegionFor "ghost" [] "us-east-1" :=
  switchProfile_no_existence_check "ghost" "us-east-1"
    [("default", [("aws_access_key_id", "AKIA")])] [] ⟨[], none⟩ (by decide)

/-- Claim C9: for every initial environment, a switch writes `AWS_PROFILE`
and `AWS_DEFAULT_REGION` and nothing else — every other variable (any `k`
distinct from those two, in particular `AWS_REGION`) reads back unchanged —
and whenever a pre-existing `AWS_REGION` value is present it still wins the
region precedence in a subsequent `resolveActive()`. -/
theorem switchProfile_frame (p d k : String) (cfg : IniStore) (st : SysState)
    (hk1 : k ≠ "AWS_PROFILE") (hk2 : k ≠ "AWS_DEFAULT_REGION") :
    getEnv (switchProfile p cfg d st).1.env "AWS_PROFILE" = some p
    ∧ getEnv (switchProfile p cfg d st).1.env "AWS_DEFAULT_REGION"
        = some (resolveRegionFor p cfg d)
    ∧ getEnv (switchProfile p cfg d st).1.env k = getEnv st.env k
    ∧ ∀ r : String, getEnv st.env "AWS_REGION" = some r →
        (resolveActive (switchProfile p cfg d st).1.env cfg d).2 = r := by
  refine ⟨?_, ?_, ?_, ?_⟩
  · simp only [switchProfile]
    rw [getEnv_setEnv_ne _ _ _ _ (by decide)]
    exact getEnv_setEnv_self _ _ _
  · simp only [switchProfile]
    exact getEnv_setEnv_self _ _ _
  · simp only [switchProfile]
    rw [getEnv_setEnv_ne _ _ _ _ hk2, getEnv_setEnv_ne _ _ _ _ hk1]
  · intro r hr
    have hR : getEnv (switchProfile p cfg d st).1.env "AWS_REGION" = some r := by
      simp only [switchProfile]
      rw [getEnv_setEnv_ne _ _ _ _ (by decide), getEnv_setEnv_ne _ _ _ _ (by decide)]
      exact hr
    simp [resolveActive, currentRegion, hR]

/-- Claim C9 witness: after switching, `HOME` is untouched and the
pre-existing `AWS_REGION=eu-central-1` still decides the resolved region. -/
theorem switchProfile_frame_witness :
    getEnv (switchProfile "team-a" [] "us-east-1"
        ⟨[("HOME", "/home/dev"), ("AWS_REGION", "eu-central-1")], none⟩).1.env
        "AWS_PROFILE" = some "team-a"
    ∧ getEnv (switchProfile "team-a" [] "us-east-1"
        ⟨[("HOME", "/home/dev"), ("AWS_REGION", "eu-central-1")], none⟩).1.env
        "AWS_DEFAULT_REGION" = some (resolveRegionFor "team-a" [] "us-east-1")
    ∧ getEnv (switchProfile "team-a" [] "us-east-1"
        ⟨[("HOME", "/home/dev"), ("AWS_REGION", "eu-central-1")], none⟩).1.env
        "HOME"
      = getEnv [("HOME", "/home/dev"), ("AWS_REGION", "eu-central-1")] "HOME"
    ∧ (resolveActive (switchProfile "team-a" [] "us-east-1"
        ⟨[("HOME", "/home/dev"), ("AWS_REGION", "eu-central-1")], none⟩).1.env
        [] "us-east-1").2 = "eu-central-1" := by
  have h := switchProfile_frame "team-a" "us-east-1" "HOME" []
    ⟨[("HOME", "/home/dev"), ("AWS_REGION", "eu-central-1")], none⟩
    (by decide) (by decide)
  exact ⟨h.1, h.2.1, h.2.2.1, h.2.2.2 "eu-central-1" (by decide)⟩

/-- Claim C10: two `config.json` settings records that differ only in their
favorites list make `listProfiles`/`resolveActive` (through
`get_aws_profiles`), `resolveRegionFor`, and `switchTo` produce identical
profile lists, selections, regions, and environment mutations — favorites are
presentation-only. -/
theorem favorites_noninterference (s : Settings) (f : List Favorite)
    (p : String) (b : Bool) (cred cfg : IniStore) (env : Env) (st : SysState) :
    (getAwsProfiles ⟨s.defaultRegion, f⟩ b cred cfg env).profiles
        = (getAwsProfiles s b cred cfg env).profiles
    ∧ (getAwsProfiles ⟨s.defaultRegion, f⟩ b cred cfg env).currentProfile
        = (getAwsProfiles s b cred cfg env).currentProfile
    ∧ (getAwsProfiles ⟨s.defaultRegion, f⟩ b cred cfg env).currentRegion
        = (getAwsProfiles s b cred cfg env).currentRegion
    ∧ resolveActiveS ⟨s.defaultRegion, f⟩ env cfg = resolveActiveS s env cfg
    ∧ resolveRegionForS ⟨s.defaultRegion, f⟩ p cfg = resolveRegionForS s p cfg
    ∧ switchProfileS ⟨s.defaultRegion, f⟩ p cfg st = switchProfileS s p cfg st := by
  cases b with
  | false => exact ⟨rfl, rfl, rfl, rfl, rfl, rfl⟩
  | true => exact ⟨rfl, rfl, rfl, rfl, rfl, rfl⟩

end DevWizard
